import Mathlib

/-!
Verification of the WireGuard transport layer of a proxy outbound
(direct-socket Bind, dialer-relayed Bind, and device bring-up), shallowly
embedded from the Go sources `transport/wireguard/bind_std.go` and the
outbound adapter file.   Bytes are modelled as `Nat` (all writes are
concrete values below 256), buffers as `List Nat`, Go errors as small
inductive types, and the mutable receiver structs as explicit state records.
-/

set_option autoImplicit false

/-- Cause of a dial failure wrapped by `wgError` (`errors.Is` classification):
either `syscall.ENETUNREACH` or anything else. -/
inductive GoCause where
  | enetunreach
  | otherCause
deriving DecidableEq, Repr

/-- Go error values observable in the relayed-Bind code: `net.ErrClosed`
and a `*wgError` wrapping a dial-failure cause (`wgError.IsError target`
is `errors.Is(cause, target)`). -/
inductive GoErrV where
  | errClosed
  | wgError (cause : GoCause)
deriving DecidableEq, Repr

/-- One underlying relayed connection (`wgConn`): wraps a dialed `net.Conn`
with a one-shot `done` channel; `closed` is whether `done` has been closed. -/
structure WgConn where
  closed : Bool
deriving DecidableEq, Repr

/-- `wgConn.Close`: if `done` is already closed, return `net.ErrClosed`;
otherwise close the underlying conn and the `done` channel. -/
def WgConn.Close (c : WgConn) : WgConn × Option GoErrV :=
  if c.closed then (c, some GoErrV.errClosed)
  else ({ c with closed := true }, none)

/-- State of the dialer-relayed Bind (`WgBind`).  The `done` field models the
`done chan struct{}`: `none` is the nil channel (never assigned), `some false`
an allocated channel not yet closed, `some true` a closed channel.
`conn` is the current connection, `reserved` the optional 3-byte marker. -/
structure WgBind where
  conn : Option WgConn
  done : Option Bool
  reserved : Option (Nat × Nat × Nat)
deriving DecidableEq, Repr

/-- `NewWgBind`: fresh Bind; the Go struct literal leaves `conn` nil and the
`done` channel nil. -/
def NewWgBind (reserved : Option (Nat × Nat × Nat)) : WgBind :=
  { conn := none, done := none, reserved := reserved }

/-- `WgBind.Close`: closes the current connection if any; then, if the `done`
channel is nil, allocates it and returns nil; if it is already closed,
returns `net.ErrClosed`; otherwise closes it and returns nil. -/
def WgBind.Close (wb : WgBind) : WgBind × Option GoErrV :=
  let wb := { wb with conn := wb.conn.map (fun c => (WgConn.Close c).1) }
  match wb.done with
  | none => ({ wb with done := some false }, none)
  | some true => (wb, some GoErrV.errClosed)
  | some false => ({ wb with done := some true }, none)

/-- `WgBind.Open`: returns `net.ErrClosed` when the `done` channel is closed
(the `select` with `default` falls through on a nil or open channel);
otherwise registers the single receive function and reports port 0. -/
def WgBind.Open (wb : WgBind) : Except GoErrV (Nat × Nat) :=
  match wb.done with
  | some true => Except.error GoErrV.errClosed
  | _ => Except.ok (1, 0)

/-- `WgBind.setReserved`: no-op when the buffer is shorter than 4 bytes or no
marker is configured; otherwise overwrites bytes 1-3 with the marker. -/
def WgBind.setReserved (wb : WgBind) (b : List Nat) : List Nat :=
  match wb.reserved with
  | none => b
  | some (r0, r1, r2) =>
    if b.length < 4 then b
    else ((b.set 1 r0).set 2 r1).set 3 r2

/-- `WgBind.resetReserved`: no-op on buffers shorter than 4 bytes; otherwise
zeroes bytes 1-3. -/
def WgBind.resetReserved (b : List Nat) : List Nat :=
  if b.length < 4 then b
  else ((b.set 1 0).set 2 0).set 3 0

/-- `WgBind.connect`: returns the current connection if it exists and its
`done` channel is not closed (the locked re-check is the same computation in
this sequential model); otherwise dials via the configured dialer —
`dialResult` is the external dialer's outcome — wrapping a dial failure in
`*wgError` and installing a fresh connection on success. -/
def WgBind.connect (wb : WgBind) (dialResult : Except GoCause Unit) :
    Except GoErrV (WgBind × WgConn) :=
  match wb.conn with
  | some c =>
    if c.closed then
      match dialResult with
      | Except.error cause => Except.error (GoErrV.wgError cause)
      | Except.ok _ =>
        let c2 : WgConn := { closed := false }
        Except.ok ({ wb with conn := some c2 }, c2)
    else Except.ok (wb, c)
  | none =>
    match dialResult with
    | Except.error cause => Except.error (GoErrV.wgError cause)
    | Except.ok _ =>
      let c2 : WgConn := { closed := false }
      Except.ok ({ wb with conn := some c2 }, c2)

/-- Result of one call to the relayed Bind's `receive`:
`n` and `err` are the function results, `sizes`/`bufs` the written prefixes of
the `sizes` and packet-buffer arrays, `connClosed` whether the loop closed the
underlying connection, `slept` whether the 2-second backoff was performed. -/
structure WgReceiveOut where
  n : Nat
  err : Option GoErrV
  sizes : List Nat
  bufs : List (List Nat)
  connClosed : Bool
  slept : Bool
deriving DecidableEq, Repr

/-- The sequential read loop of `WgBind.receive`.  `read i b` is the outcome
of the i-th `udpConn.Read(b)`: the buffer contents after the read, the size,
and the error.  `doneClosed` is whether the Bind's `done` channel is closed
when the in-loop `select` runs.  On a read failure the connection is closed;
if the Bind was closed the error is `net.ErrClosed`, otherwise `sizes[i]` is
reset to 0 and the error suppressed; `n` is left at the index `i` of the
failing read, i.e. the number of datagrams read before the failure. -/
def WgBind.receiveLoop (doneClosed : Bool)
    (read : Nat → List Nat → List Nat × Nat × Option GoErrV) :
    Nat → List (List Nat) → WgReceiveOut
  | i, [] => { n := i, err := none, sizes := [], bufs := [], connClosed := false, slept := false }
  | i, b :: rest =>
    let r := read i b
    match r.2.2 with
    | some _ =>
      if doneClosed then
        { n := i, err := some GoErrV.errClosed, sizes := [r.2.1], bufs := [r.1],
          connClosed := true, slept := false }
      else
        { n := i, err := none, sizes := [0], bufs := [r.1],
          connClosed := true, slept := false }
    | none =>
      let tail := WgBind.receiveLoop doneClosed read (i + 1) rest
      { tail with sizes := r.2.1 :: tail.sizes,
                  bufs := WgBind.resetReserved r.1 :: tail.bufs }

/-- `WgBind.receive`: first calls `connect`.  On a connect failure the error
is replaced by `net.ErrClosed` when the Bind's `done` channel is closed and by
nil otherwise, and only then is the replaced error tested for being a
`*wgError` classified `ENETUNREACH` to decide the 2-second sleep — exactly as
the source does after reassigning `err`.  On success it runs the read loop. -/
def WgBind.receive (wb : WgBind) (doneClosed : Bool) (dialResult : Except GoCause Unit)
    (read : Nat → List Nat → List Nat × Nat × Option GoErrV)
    (packets : List (List Nat)) : WgReceiveOut :=
  match WgBind.connect wb dialResult with
  | Except.error _ =>
    let err : Option GoErrV := if doneClosed then some GoErrV.errClosed else none
    let slept : Bool :=
      match err with
      | some (GoErrV.wgError cause) => cause = GoCause.enetunreach
      | _ => false
    { n := 0, err := err, sizes := [], bufs := [], connClosed := false, slept := slept }
  | Except.ok _ => WgBind.receiveLoop doneClosed read 0 packets

/-- Errors observable in the direct-socket Bind code: `wg.ErrBindAlreadyOpen`
and the syscall errors the `Open`/`Send` paths distinguish via `errors.Is`. -/
inductive StdErr where
  | bindAlreadyOpen
  | eafnosupport
  | eaddrinuse
  | otherE
deriving DecidableEq, Repr

/-- A `netip.Addr` value: the zero value (`invalid`), an IPv4 address, or an
IPv6 address (16 abstract segments; textual IPv6 parsing is not exercised by
any claim input). -/
inductive NetipAddr where
  | invalid
  | v4 (a b c d : Nat)
  | v6 (segs : List Nat)
deriving DecidableEq, Repr

/-- `netip.Addr.Is6`: true exactly for 16-byte addresses; the zero value and
4-byte addresses answer false. -/
def NetipAddr.Is6 : NetipAddr → Bool
  | NetipAddr.v6 _ => true
  | _ => false

/-- `netip.Addr.IsValid`: false only for the zero value. -/
def NetipAddr.IsValid : NetipAddr → Bool
  | NetipAddr.invalid => false
  | _ => true

/-- Mutable state of the direct-socket Bind (`StdNetBind`) guarded by `mu`:
the per-family sockets (each open socket carries the error its `Close()` will
report), the per-family blackhole flags, and the configured reserved marker.
The `ipv4PC`/`ipv6PC` packet conns track the plain conns and are omitted. -/
structure StdNetBind where
  ipv4 : Option (Option StdErr)
  ipv6 : Option (Option StdErr)
  blackhole4 : Bool
  blackhole6 : Bool
  reserved : Option (Nat × Nat × Nat)
deriving DecidableEq, Repr

/-- `StdNetBind.setReserved`: no-op when the buffer is shorter than 4 bytes or
no marker is configured; otherwise overwrites bytes 1-3 with the marker. -/
def StdNetBind.setReserved (s : StdNetBind) (b : List Nat) : List Nat :=
  match s.reserved with
  | none => b
  | some (r0, r1, r2) =>
    if b.length < 4 then b
    else ((b.set 1 r0).set 2 r1).set 3 r2

/-- `StdNetBind.resetReserved`: no-op on buffers shorter than 4 bytes;
otherwise zeroes bytes 1-3. -/
def StdNetBind.resetReserved (b : List Nat) : List Nat :=
  if b.length < 4 then b
  else ((b.set 1 0).set 2 0).set 3 0

/-- `StdNetBind.Close`: closes each open socket, clears both socket fields and
both blackhole flags, and returns the IPv4 close error if non-nil, else the
IPv6 one. -/
def StdNetBind.Close (s : StdNetBind) : StdNetBind × Option StdErr :=
  let err1 := match s.ipv4 with
    | some c => c
    | none => none
  let err2 := match s.ipv6 with
    | some c => c
    | none => none
  ({ s with ipv4 := none, ipv6 := none, blackhole4 := false, blackhole6 := false },
   match err1 with
   | some e => some e
   | none => err2)

/-- Observable outcome of `StdNetBind.Send`: either it returned early with the
given error value (`ret none` is the silent blackhole success, `ret (some
eafnosupport)` the missing-socket failure), or it proceeded to `send4`/`send6`
with the reserved-marker-patched buffers. -/
inductive SendOutcome where
  | ret (err : Option StdErr)
  | transmit (is6 : Bool) (bufs : List (List Nat))
deriving DecidableEq, Repr

/-- `StdNetBind.Send`: selects the blackhole flag and socket of the endpoint's
address family (`DstIP().Is6()`); if the flag is set returns nil without
transmitting; if the socket is nil returns `EAFNOSUPPORT`; otherwise patches
every buffer with `setReserved` and hands off to `send6`/`send4`. -/
def StdNetBind.Send (s : StdNetBind) (bufs : List (List Nat)) (epDstIP : NetipAddr) :
    SendOutcome :=
  let is6 := epDstIP.Is6
  let blackhole := if is6 then s.blackhole6 else s.blackhole4
  let conn := if is6 then s.ipv6 else s.ipv4
  if blackhole then SendOutcome.ret none
  else match conn with
    | none => SendOutcome.ret (some StdErr.eafnosupport)
    | some _ => SendOutcome.transmit is6 (bufs.map s.setReserved)

/-- Environment for `StdNetBind.Open`: the outcome of
`listenNet(network, port)` on the `tries`-th pass of the retry loop, per
family; an `ok` result is the bound port. -/
structure OpenEnv where
  listen4 : Nat → Nat → Except StdErr Nat
  listen6 : Nat → Nat → Except StdErr Nat

/-- Successful outcome of the `Open` listen loop: which families got a socket
and the final value of the `port` variable. -/
structure OpenOk where
  hasV4 : Bool
  hasV6 : Bool
  port : Nat
deriving DecidableEq, Repr

/-- The `again:` retry loop of `StdNetBind.Open`.  `budget` is `100 - tries`,
so the source guard `tries < 100` is `0 < budget` and the recursion is
structural in `budget`.  Each pass resets `port` to the requested port and
listens on udp4: a failure other than `EAFNOSUPPORT` aborts, and `listenNet`
reports port 0 on failure.  It then listens on udp6 at the resulting port:
when the requested port was 0 and udp6 failed with `EADDRINUSE` within
budget, the udp4 socket is dropped and the loop retries; a udp6 failure
other than `EAFNOSUPPORT` aborts; and the pass fails with `EAFNOSUPPORT`
when neither family produced a socket. -/
def StdNetBind.openLoop (env : OpenEnv) (uport : Nat) :
    Nat → Nat → Except StdErr OpenOk
  | budget, tries =>
    let r4 := env.listen4 tries uport
    let hasV4 : Bool := match r4 with
      | Except.ok _ => true
      | Except.error _ => false
    let port1 : Nat := match r4 with
      | Except.ok p4 => p4
      | Except.error _ => 0
    let abort4 : Option StdErr := match r4 with
      | Except.ok _ => none
      | Except.error e4 => if e4 = StdErr.eafnosupport then none else some e4
    match abort4 with
    | some e => Except.error e
    | none =>
      match env.listen6 tries port1 with
      | Except.ok p6 => Except.ok { hasV4 := hasV4, hasV6 := true, port := p6 }
      | Except.error e6 =>
        let nonRetry : Except StdErr OpenOk :=
          if e6 = StdErr.eafnosupport then
            if hasV4 then Except.ok { hasV4 := true, hasV6 := false, port := 0 }
            else Except.error StdErr.eafnosupport
          else Except.error e6
        if uport = 0 ∧ e6 = StdErr.eaddrinuse then
          match budget with
          | b + 1 => StdNetBind.openLoop env uport b (tries + 1)
          | 0 => nonRetry
        else nonRetry

/-- `StdNetBind.Open`: fails with `ErrBindAlreadyOpen` when either socket
field is already set; otherwise runs the listen loop (100 retries available)
and on success installs the per-family sockets, one receive function per
socket, and returns the function count and the port truncated to uint16. -/
def StdNetBind.Open (s : StdNetBind) (env : OpenEnv) (uport : Nat) :
    StdNetBind × Except StdErr (Nat × Nat) :=
  if s.ipv4.isSome ∨ s.ipv6.isSome then (s, Except.error StdErr.bindAlreadyOpen)
  else
    match StdNetBind.openLoop env uport 100 0 with
    | Except.error e => (s, Except.error e)
    | Except.ok r =>
      ({ s with ipv4 := if r.hasV4 then some none else none,
                ipv6 := if r.hasV6 then some none else none },
       Except.ok ((if r.hasV4 then 1 else 0) + (if r.hasV6 then 1 else 0),
                  r.port % 65536))

/-- Runtime type tags for values held in the Bind's `sync.Pool`s.  In
`golang.org/x/net` (v0.15.0, per go.mod) both `ipv4.Message` and
`ipv6.Message` are declared as `type Message = socket.Message`, i.e. aliases
of one identical type, so a `*[]ipv4.Message` and a `*[]ipv6.Message` carry
the same runtime type tag `msgSliceT`. -/
inductive GoType where
  | msgSliceT
  | udpAddrT
deriving DecidableEq, Repr

/-- A pooled Go value: its runtime type tag plus an identifier distinguishing
the concrete value. -/
structure GoDyn where
  tag : GoType
  payload : Nat
deriving DecidableEq, Repr

/-- A Go type assertion `v.(T)`: yields the value when the runtime tag
matches and fails (panics, in the unchecked form the source uses) otherwise. -/
def typeAssert (d : GoDyn) (t : GoType) : Option Nat :=
  if d.tag = t then some d.payload else none

/-- The three pools of `StdNetBind`, each modelled by the value its `Get`
returns. -/
structure StdNetBindPools where
  udpAddrPool : GoDyn
  ipv4MsgsPool : GoDyn
  ipv6MsgsPool : GoDyn
deriving DecidableEq, Repr

/-- `NewStdNetBind`'s pool initialisation: `udpAddrPool.New` builds a
`*net.UDPAddr`; `ipv4MsgsPool.New` builds a `*[]ipv4.Message` and
`ipv6MsgsPool.New` a `*[]ipv6.Message`, both of runtime type `msgSliceT`
since the two `Message` types are aliases of `socket.Message`. -/
def NewStdNetBindPools (addrId v4Id v6Id : Nat) : StdNetBindPools :=
  { udpAddrPool := { tag := GoType.udpAddrT, payload := addrId }
    ipv4MsgsPool := { tag := GoType.msgSliceT, payload := v4Id }
    ipv6MsgsPool := { tag := GoType.msgSliceT, payload := v6Id } }

/-- The scratch-array acquisition at the top of `makeReceiveIPv6`'s receive
function: the source reads `s.ipv4MsgsPool.Get().(*[]ipv6.Message)` — the
IPv4 pool, asserted to a slice of IPv6 messages. -/
def makeReceiveIPv6Scratch (s : StdNetBindPools) : Option Nat :=
  typeAssert s.ipv4MsgsPool GoType.msgSliceT

/-- The scratch-array acquisition in `makeReceiveIPv4`'s receive function:
`s.ipv4MsgsPool.Get().(*[]ipv4.Message)`. -/
def makeReceiveIPv4Scratch (s : StdNetBindPools) : Option Nat :=
  typeAssert s.ipv4MsgsPool GoType.msgSliceT

/-- Value of one character of the standard base64 alphabet
(`encoding/base64.StdEncoding`). -/
def base64DecodeChar (c : Char) : Option Nat :=
  if 'A' ≤ c ∧ c ≤ 'Z' then some (c.toNat - 65)
  else if 'a' ≤ c ∧ c ≤ 'z' then some (c.toNat - 97 + 26)
  else if '0' ≤ c ∧ c ≤ '9' then some (c.toNat - 48 + 52)
  else if c = '+' then some 62
  else if c = '/' then some 63
  else none

/-- Standard base64 decoding over 4-character groups with `=` padding
allowed only in the final group (the non-strict mode of
`base64.StdEncoding.DecodeString`, which ignores trailing bit content). -/
def base64DecodeGroups : List Char → Option (List Nat)
  | [] => some []
  | c0 :: c1 :: c2 :: c3 :: rest =>
    match base64DecodeChar c0, base64DecodeChar c1 with
    | some v0, some v1 =>
      if c2 = '=' then
        if c3 = '=' ∧ rest = [] then some [v0 * 4 + v1 / 16]
        else none
      else
        match base64DecodeChar c2 with
        | some v2 =>
          if c3 = '=' then
            if rest = [] then some [v0 * 4 + v1 / 16, (v1 % 16) * 16 + v2 / 4]
            else none
          else
            match base64DecodeChar c3 with
            | some v3 =>
              (base64DecodeGroups rest).map
                (fun bs => (v0 * 4 + v1 / 16) :: ((v1 % 16) * 16 + v2 / 4) ::
                  ((v2 % 4) * 64 + v3) :: bs)
            | none => none
        | none => none
    | _, _ => none
  | _ => none

/-- `base64.StdEncoding.DecodeString`. -/
def base64StdDecode (s : String) : Option (List Nat) :=
  base64DecodeGroups s.toList

/-- Lowercase hex digit for a value below 16. -/
def hexDigitChar (n : Nat) : Char :=
  if n < 10 then Char.ofNat (48 + n) else Char.ofNat (87 + n)

/-- `hex.EncodeToString`: two lowercase hex digits per byte. -/
def hexEncodeBytes (bs : List Nat) : String :=
  String.mk (bs.foldr (fun b acc => hexDigitChar (b / 16 % 16) :: hexDigitChar (b % 16) :: acc) [])

/-- Value of one hex digit, either case. -/
def hexDigitVal (c : Char) : Option Nat :=
  if '0' ≤ c ∧ c ≤ '9' then some (c.toNat - 48)
  else if 'a' ≤ c ∧ c ≤ 'f' then some (c.toNat - 87)
  else if 'A' ≤ c ∧ c ≤ 'F' then some (c.toNat - 55)
  else none

/-- `hex.DecodeString` over a character list: pairs of hex digits, failing on
odd length or a non-hex character. -/
def hexDecodeList : List Char → Option (List Nat)
  | [] => some []
  | c0 :: c1 :: rest =>
    match hexDigitVal c0, hexDigitVal c1 with
    | some h, some l => (hexDecodeList rest).map (fun bs => (h * 16 + l) :: bs)
    | _, _ => none
  | _ => none

/-- `hex.DecodeString`. -/
def hexDecodeBytes (s : String) : Option (List Nat) :=
  hexDecodeList s.toList

/-- `strings.ToLower` (ASCII suffices for every input the code lowercases). -/
def lowerStr (s : String) : String :=
  String.mk (s.toList.map Char.toLower)

/-- `strings.TrimPrefix(s, "0x")`: removes one leading `0x` if present. -/
def trimHexMark (s : String) : String :=
  match s.toList with
  | '0' :: 'x' :: rest => String.mk rest
  | _ => s

/-- The first component of `strings.Cut(s, "/")`: the part before the first
slash, or the whole string when there is none. -/
def cutSlash (s : String) : String :=
  String.mk (s.toList.takeWhile (fun c => c ≠ '/'))

/-- One dotted-quad field per `net/netip`: 1-3 digits, no leading zero,
value at most 255. -/
def parseV4Field (s : String) : Option Nat :=
  let cs := s.toList
  if cs.length = 0 ∨ 3 < cs.length then none
  else if cs.all Char.isDigit then
    if 1 < cs.length ∧ cs.head? = some '0' then none
    else
      let n := cs.foldl (fun a c => a * 10 + (c.toNat - 48)) 0
      if n ≤ 255 then some n else none
  else none

/-- Split a character list at every dot (`strings.Split`-style: n dots give
n+1 groups, empty groups preserved). -/
def splitDot : List Char → List (List Char)
  | [] => [[]]
  | c :: rest =>
    let r := splitDot rest
    if c = '.' then [] :: r
    else match r with
      | g :: gs => (c :: g) :: gs
      | [] => [[c]]

/-- `netip.ParseAddr` restricted to IPv4 dotted-quad inputs.  IPv6 textual
forms (which contain a colon) are outside the model; no claim input contains
one. -/
def netipParseAddr (s : String) : Option NetipAddr :=
  if s.toList.contains ':' then none
  else match splitDot s.toList with
    | [f0, f1, f2, f3] =>
      match parseV4Field (String.mk f0), parseV4Field (String.mk f1),
            parseV4Field (String.mk f2), parseV4Field (String.mk f3) with
      | some a, some b, some c, some d => some (NetipAddr.v4 a b c d)
      | _, _, _, _ => none
    | _ => none

/-- `strconv.ParseUint(s, 10, 16)` with the error discarded as the source
does: a syntax error leaves 0, a range overflow leaves the 16-bit maximum. -/
def parseUint16 (s : String) : Nat :=
  let cs := s.toList
  if cs.length = 0 then 0
  else if cs.all Char.isDigit then
    let n := cs.foldl (fun a c => a * 10 + (c.toNat - 48)) 0
    if n < 65536 then n else 65535
  else 0

/-- `netip.Addr.String` for the constructors the claims exercise. -/
def NetipAddr.toStr : NetipAddr → String
  | NetipAddr.invalid => "invalid IP"
  | NetipAddr.v4 a b c d =>
    toString a ++ "." ++ toString b ++ "." ++ toString c ++ "." ++ toString d
  | NetipAddr.v6 _ => "(ipv6 text form unmodelled)"

/-- `netip.AddrPort.String`: `addr:port`, with the address bracketed for
IPv6. -/
def addrPortStr (a : NetipAddr) (p : Nat) : String :=
  match a with
  | NetipAddr.v6 segs => "[" ++ (NetipAddr.v6 segs).toStr ++ "]:" ++ toString p
  | x => x.toStr ++ ":" ++ toString p

/-- The configuration fields of `WireGuardOption` that `NewWireGuard`
consumes. -/
structure WireGuardOption where
  name : String
  server : String
  port : Nat
  ip : String
  ipv6 : String
  privateKey : String
  publicKey : String
  presharedKey : String
  dns : List String
  mtu : Nat
  udp : Bool
  remoteDnsResolve : Bool
  reserved : String
deriving DecidableEq, Repr

/-- The fields of the constructed `WireGuard` outbound that bring-up later
reads: the local addresses, DNS server list, reserved marker, the UAPI lines
built so far, and the MTU. -/
structure WireGuard where
  localIP : NetipAddr
  localIPv6 : NetipAddr
  dnsServers : List NetipAddr
  reserved : Option (Nat × Nat × Nat)
  uapiConf : List String
  mtu : Nat
  remoteDnsResolve : Bool
deriving DecidableEq, Repr

/-- `NewWireGuard`: decodes the keys from base64 and appends the
`private_key`, `public_key` and (when configured) `preshared_key` lines in
hex; decodes the optional reserved marker from hex requiring exactly 3
bytes; parses the optional local addresses (everything before a `/`),
requiring at least one; defaults the DNS list to `1.1.1.1`, `8.8.8.8` when
empty and parses it into a slice created with `make([]netip.Addr, len(dns))`
and grown by `append`; appends one `allowed_ip` line per configured family;
and defaults the MTU to 1408. -/
def NewWireGuard (o : WireGuardOption) : Except String WireGuard := do
  let some privateKeyBytes := base64StdDecode o.privateKey
    | throw "decode wireguard private key failure"
  let uapiConf := ["private_key=" ++ hexEncodeBytes privateKeyBytes]
  let some publicKeyBytes := base64StdDecode o.publicKey
    | throw "decode wireguard peer public key failure"
  let uapiConf := uapiConf ++ ["public_key=" ++ hexEncodeBytes publicKeyBytes]
  let uapiConf ←
    if o.presharedKey = "" then pure uapiConf
    else match base64StdDecode o.presharedKey with
      | some bs => pure (uapiConf ++ ["preshared_key=" ++ hexEncodeBytes bs])
      | none => throw "decode wireguard preshared key failure"
  let reservedBytes ←
    if o.reserved = "" then pure (none : Option (Nat × Nat × Nat))
    else match hexDecodeBytes (trimHexMark (lowerStr o.reserved)) with
      | some [r0, r1, r2] => pure (some (r0, r1, r2))
      | _ => throw "decode wireguard reserved 3 bytes failure"
  let localIP ←
    if o.ip = "" then pure NetipAddr.invalid
    else match netipParseAddr (cutSlash o.ip) with
      | some a => pure a
      | none => throw "parse wireguard ip address failure"
  let localIPv6 ←
    if o.ipv6 = "" then pure NetipAddr.invalid
    else match netipParseAddr (cutSlash o.ipv6) with
      | some a => pure a
      | none => throw "parse wireguard ipv6 address failure"
  if localIP.IsValid = false ∧ localIPv6.IsValid = false then
    throw "wireguard missing local ip"
  let dns := if o.dns.isEmpty then ["1.1.1.1", "8.8.8.8"] else o.dns
  let dnsInit : List NetipAddr := List.replicate dns.length NetipAddr.invalid
  let dnsServers ← dns.foldlM (fun acc d =>
      match netipParseAddr d with
      | some ip => pure (acc ++ [ip])
      | none => throw "parse wireguard dns address failure") dnsInit
  let uapiConf := if localIP.IsValid then uapiConf ++ ["allowed_ip=0.0.0.0/0"] else uapiConf
  let uapiConf := if localIPv6.IsValid then uapiConf ++ ["allowed_ip=::/0"] else uapiConf
  let mtu := if o.mtu = 0 then 1408 else o.mtu
  return { localIP := localIP, localIPv6 := localIPv6, dnsServers := dnsServers,
           reserved := reservedBytes, uapiConf := uapiConf, mtu := mtu,
           remoteDnsResolve := o.remoteDnsResolve }

/-- The `lookup:` retry loop of `(*WireGuard).init`.  `resolve k` is the
outcome of the external resolver's k-th attempt (0-based); `retriesLeft` is
`5 - tryTimes`, so the source guard `tryTimes < 5` is `0 < retriesLeft` and
the recursion is structural.  Returns the resolved value, if any, together
with the total number of resolution attempts performed. -/
def WireGuard.resolveLoop {α : Type} (resolve : Nat → Option α) :
    Nat → Nat → Option α × Nat
  | attempt, retriesLeft =>
    match resolve attempt with
    | some a => (some a, attempt + 1)
    | none =>
      match retriesLeft with
      | r + 1 => WireGuard.resolveLoop resolve (attempt + 1) r
      | 0 => (none, attempt + 1)

/-- The hostname-resolution phase of `(*WireGuard).init`: the loop entered
with `tryTimes = 0`. -/
def WireGuard.resolveHost {α : Type} (resolve : Nat → Option α) : Option α × Nat :=
  WireGuard.resolveLoop resolve 0 5

/-- The configuration-assembly step of `(*WireGuard).init` after a
successful resolution: parses the port string produced by `SplitHostPort`
on the proxy address (`ParseUint` error discarded), forms the endpoint from
the resolved IP, and appends the `endpoint=` line after the lines already
built by `NewWireGuard`. -/
def WireGuard.initUapiConf (w : WireGuard) (endpointIP : NetipAddr)
    (portStr : String) : List String :=
  w.uapiConf ++ ["endpoint=" ++ addrPortStr endpointIP (parseUint16 portStr)]

/-- `(*WireGuard).init` up to the point the UAPI configuration is applied:
resolve with bounded retry, then assemble the final UAPI lines; `none` when
resolution fails permanently. -/
def WireGuard.initConf (w : WireGuard) (resolve : Nat → Option NetipAddr)
    (portStr : String) : Option (List String) :=
  match WireGuard.resolveHost resolve with
  | (some ip, _) => some (WireGuard.initUapiConf w ip portStr)
  | (none, _) => none

/-- Claim C1, counterexample: on a freshly-constructed, opened relayed Bind
holding a live connection, the second `Close` also returns nil — not the
"already closed" error the claim states — because the first `Close` only
allocates the until-then-nil `done` channel. -/
theorem wgBind_close_second_close_cex :
    (WgBind.Close { conn := some { closed := false }, done := none, reserved := none }).2 = none ∧
    (WgBind.Close (WgBind.Close
      { conn := some { closed := false }, done := none, reserved := none }).1).2 = none ∧
    (WgBind.Close (WgBind.Close
      { conn := some { closed := false }, done := none, reserved := none }).1).2 ≠
      some GoErrV.errClosed := by
  decide

/-- Claim C1, amended: on a relayed Bind whose `done` channel is still nil
(as every constructed and opened Bind's is, since only `Close` assigns it),
the first and the second `Close` both succeed, and only the third and later
calls fail with "already closed"; the failing call leaves the state
unchanged. -/
theorem wgBind_close_three_times (wb : WgBind) (h : wb.done = none) :
    (WgBind.Close wb).2 = none ∧
    (WgBind.Close (WgBind.Close wb).1).2 = none ∧
    (WgBind.Close (WgBind.Close (WgBind.Close wb).1).1).2 = some GoErrV.errClosed ∧
    (WgBind.Close (WgBind.Close (WgBind.Close wb).1).1).1 =
      (WgBind.Close (WgBind.Close wb).1).1 := by
  obtain ⟨conn, done, reserved⟩ := wb
  obtain rfl : done = none := h
  cases conn with
  | none => simp [WgBind.Close]
  | some c =>
    cases c with
    | mk closed =>
      cases closed <;> simp [WgBind.Close, WgConn.Close]

/-- Claim C1, witness for the amended theorem at a concrete opened Bind. -/
theorem wgBind_close_three_times_witness :
    (WgBind.Close (NewWgBind (some (1, 2, 3)))).2 = none ∧
    (WgBind.Close (WgBind.Close (NewWgBind (some (1, 2, 3)))).1).2 = none ∧
    (WgBind.Close (WgBind.Close (WgBind.Close (NewWgBind (some (1, 2, 3)))).1).1).2 =
      some GoErrV.errClosed ∧
    (WgBind.Close (WgBind.Close (WgBind.Close (NewWgBind (some (1, 2, 3)))).1).1).1 =
      (WgBind.Close (WgBind.Close (NewWgBind (some (1, 2, 3)))).1).1 :=
  wgBind_close_three_times (NewWgBind (some (1, 2, 3))) rfl

/-- Claim C2, counterexample: against a resolver that always fails, bring-up
performs 6 resolution attempts before failing permanently (the initial
attempt plus 5 retries), not at most 5 as the claim states. -/
theorem resolve_retry_attempts_cex :
    (WireGuard.resolveHost (fun _ => (none : Option NetipAddr))).2 = 6 ∧
    ¬ (WireGuard.resolveHost (fun _ => (none : Option NetipAddr))).2 ≤ 5 := by
  decide

/-- Helper for claim C2: the resolution loop performs at most
`retriesLeft + 1` further attempts. -/
theorem resolveLoop_attempts_le {α : Type} (resolve : Nat → Option α) :
    ∀ (retriesLeft attempt : Nat),
      (WireGuard.resolveLoop resolve attempt retriesLeft).2 ≤ attempt + retriesLeft + 1 := by
  intro retriesLeft
  induction retriesLeft with
  | zero =>
    intro attempt
    cases hres : resolve attempt <;> simp [WireGuard.resolveLoop, hres]
  | succ r ih =>
    intro attempt
    cases hres : resolve attempt with
    | none =>
      have := ih (attempt + 1)
      simp only [WireGuard.resolveLoop, hres]
      omega
    | some a => simp [WireGuard.resolveLoop, hres]

/-- Claim C2, amended: a resolver failing on the first 4 attempts and
succeeding on the 5th makes bring-up resolution succeed with the 5th result
after exactly 5 attempts; and against any resolver at most 6 resolution
attempts (the initial one plus 5 retries) are performed in total. -/
theorem resolve_retry_amended :
    (∀ (resolve : Nat → Option NetipAddr) (x : NetipAddr),
      (∀ k, k < 4 → resolve k = none) → resolve 4 = some x →
      WireGuard.resolveHost resolve = (some x, 5)) ∧
    (∀ (resolve : Nat → Option NetipAddr), (WireGuard.resolveHost resolve).2 ≤ 6) := by
  constructor
  · intro resolve x hfail hsucc
    have h0 := hfail 0 (by omega)
    have h1 := hfail 1 (by omega)
    have h2 := hfail 2 (by omega)
    have h3 := hfail 3 (by omega)
    simp [WireGuard.resolveHost, WireGuard.resolveLoop, h0, h1, h2, h3, hsucc]
  · intro resolve
    have := resolveLoop_attempts_le resolve 5 0
    simpa [WireGuard.resolveHost] using this

/-- Claim C2, witness: the amended theorem applied to a concrete resolver
that fails 4 times and then succeeds. -/
theorem resolve_retry_amended_witness :
    WireGuard.resolveHost (fun k => if k < 4 then none else some (NetipAddr.v4 10 0 0 1)) =
      (some (NetipAddr.v4 10 0 0 1), 5) :=
  resolve_retry_amended.1 (fun k => if k < 4 then none else some (NetipAddr.v4 10 0 0 1))
    (NetipAddr.v4 10 0 0 1) (by decide) (by decide)

/-- The concrete construction input of claims C3 and C9: private key the
base64 of 32 zero bytes, public key a base64 string of the same length,
local IPv4 `10.0.0.2/32`, no IPv6, no preshared key, no DNS servers, no
reserved bytes. -/
def wgSampleOption : WireGuardOption :=
  { name := "wg", server := "engage.cloudflareclient.com", port := 51820,
    ip := "10.0.0.2/32", ipv6 := "",
    privateKey := "AAAAAAAAAAAAAAAAAAAAAAAAAAAAAAAAAAAAAAAAAAA=",
    publicKey := "BBBBBBBBBBBBBBBBBBBBBBBBBBBBBBBBBBBBBBBBBBB=",
    presharedKey := "", dns := [], mtu := 0, udp := true,
    remoteDnsResolve := false, reserved := "" }

/-- The UAPI lines applied at bring-up for `wgSampleOption`, with the server
resolved to `162.159.193.10` and port string `51820`. -/
def wgSampleUapi : List String :=
  match NewWireGuard wgSampleOption with
  | Except.ok w => WireGuard.initUapiConf w (NetipAddr.v4 162 159 193 10) "51820"
  | Except.error _ => []

/-- The DNS server list `NewWireGuard` builds for `wgSampleOption` (which
configures no DNS servers). -/
def wgSampleDnsServers : List NetipAddr :=
  match NewWireGuard wgSampleOption with
  | Except.ok w => w.dnsServers
  | Except.error _ => []

/-- Claim C3, counterexample: the applied UAPI lines are not in the claimed
order `private_key`, `public_key`, `endpoint`, `allowed_ip` — the
`endpoint=` line is appended by `init` after the `allowed_ip` line that
`NewWireGuard` already placed. -/
theorem uapi_order_cex :
    wgSampleUapi ≠
      ["private_key=0000000000000000000000000000000000000000000000000000000000000000",
       "public_key=0410410410410410410410410410410410410410410410410410410410410410",
       "endpoint=162.159.193.10:51820",
       "allowed_ip=0.0.0.0/0"] := by
  decide

/-- Claim C3, amended: for the given construction inputs the applied UAPI
configuration consists of exactly the lines `private_key=<hex>`,
`public_key=<hex>`, `allowed_ip=0.0.0.0/0`, `endpoint=<ip>:<port>` in that
order — the endpoint line last, with no `preshared_key` line and no
`allowed_ip=::/0` line. -/
theorem uapi_lines_amended :
    wgSampleUapi =
      ["private_key=0000000000000000000000000000000000000000000000000000000000000000",
       "public_key=0410410410410410410410410410410410410410410410410410410410410410",
       "allowed_ip=0.0.0.0/0",
       "endpoint=162.159.193.10:51820"] := by
  decide

/-- Claim C5, code bug: with a connect failure classified
`ENETUNREACH` and the Bind not closed, `receive` returns zero count and a nil
error but performs no backoff — the `*wgError` type assertion runs on the
`err` variable after it has been overwritten to nil (or `net.ErrClosed`), so
the 2-second sleep is unreachable.  When the Bind is closed the connect
failure is reported as `net.ErrClosed`, as the claim states. -/
theorem wgBind_receive_no_backoff :
    (WgBind.receive (NewWgBind none) false (Except.error GoCause.enetunreach)
      (fun _ b => (b, 0, none)) []).slept = false ∧
    (WgBind.receive (NewWgBind none) false (Except.error GoCause.enetunreach)
      (fun _ b => (b, 0, none)) []).n = 0 ∧
    (WgBind.receive (NewWgBind none) false (Except.error GoCause.enetunreach)
      (fun _ b => (b, 0, none)) []).err = none ∧
    (WgBind.receive { conn := none, done := some true, reserved := none } true
      (Except.error GoCause.enetunreach) (fun _ b => (b, 0, none)) []).err =
      some GoErrV.errClosed := by
  decide

/-- Claim C9, code bug: with no DNS servers configured, the DNS list handed
to the virtual network stack is the 4-element list beginning with two
zero-value (invalid) addresses — `make([]netip.Addr, len(dns))` already
fills two slots before `append` adds the parsed defaults — not exactly the
two addresses `1.1.1.1`, `8.8.8.8`. -/
theorem dns_default_bug :
    wgSampleDnsServers =
      [NetipAddr.invalid, NetipAddr.invalid, NetipAddr.v4 1 1 1 1, NetipAddr.v4 8 8 8 8] ∧
    wgSampleDnsServers ≠ [NetipAddr.v4 1 1 1 1, NetipAddr.v4 8 8 8 8] := by
  decide

/-- Claim C10, counterexample: when the two message pools hold
distinguishable values, the scratch array obtained by the IPv6 receive path
is the IPv4 pool's value, not the IPv6 pool's — the source reads
`s.ipv4MsgsPool.Get()` inside `makeReceiveIPv6`. -/
theorem receive_ipv6_pool_cex :
    makeReceiveIPv6Scratch (NewStdNetBindPools 0 1 2) = some 1 ∧
    typeAssert (NewStdNetBindPools 0 1 2).ipv6MsgsPool GoType.msgSliceT = some 2 ∧
    makeReceiveIPv6Scratch (NewStdNetBindPools 0 1 2) ≠
      typeAssert (NewStdNetBindPools 0 1 2).ipv6MsgsPool GoType.msgSliceT := by
  decide

/-- Claim C10, amended: the IPv6 receive path draws its scratch message
array from the IPv4 message pool; the type assertion to `*[]ipv6.Message`
nevertheless always succeeds — never panicking — because both pools
construct values of the identical message type (`ipv4.Message` and
`ipv6.Message` are aliases of `socket.Message` in `golang.org/x/net`). -/
theorem receive_ipv6_pool_amended (addrId v4Id v6Id : Nat) :
    makeReceiveIPv6Scratch (NewStdNetBindPools addrId v4Id v6Id) = some v4Id ∧
    (makeReceiveIPv6Scratch (NewStdNetBindPools addrId v4Id v6Id)).isSome = true := by
  exact ⟨rfl, rfl⟩

/-- Claim C6: for every direct-socket Bind state, endpoint and buffer list,
if the endpoint's address family is in blackhole mode `Send` returns nil
without transmitting; otherwise, if no socket is open for that family,
`Send` fails with the address-family-not-supported error. -/
theorem stdNetBind_send_dispatch (s : StdNetBind) (bufs : List (List Nat)) (ep : NetipAddr) :
    ((if ep.Is6 then s.blackhole6 else s.blackhole4) = true →
      StdNetBind.Send s bufs ep = SendOutcome.ret none) ∧
    ((if ep.Is6 then s.blackhole6 else s.blackhole4) = false →
      (if ep.Is6 then s.ipv6 else s.ipv4) = none →
      StdNetBind.Send s bufs ep = SendOutcome.ret (some StdErr.eafnosupport)) := by
  constructor
  · intro hb
    simp [StdNetBind.Send, hb]
  · intro hb hc
    simp [StdNetBind.Send, hb, hc]

/-- Claim C6, witness: a blackholed IPv4 endpoint returns nil, and a
non-blackholed endpoint with no IPv4 socket returns address-family-not-
supported. -/
theorem stdNetBind_send_dispatch_witness :
    StdNetBind.Send
      { ipv4 := some none, ipv6 := none, blackhole4 := true, blackhole6 := false,
        reserved := none } [[0, 1, 2, 3, 4]] (NetipAddr.v4 1 2 3 4) =
      SendOutcome.ret none ∧
    StdNetBind.Send
      { ipv4 := none, ipv6 := none, blackhole4 := false, blackhole6 := false,
        reserved := none } [[0, 1, 2, 3, 4]] (NetipAddr.v4 1 2 3 4) =
      SendOutcome.ret (some StdErr.eafnosupport) :=
  ⟨(stdNetBind_send_dispatch _ _ _).1 (by decide),
   (stdNetBind_send_dispatch _ _ _).2 (by decide) (by decide)⟩

/-- Claim C7, counterexample: applying the sender-side marker patch followed
by the receiver-side strip does not restore a buffer whose bytes 1-3 were
not zero — the strip always writes zeros.  Shown at buffer `[0,5,5,5]` with
marker `(1,2,3)` for both Binds' implementations. -/
theorem reserved_roundtrip_cex :
    StdNetBind.resetReserved (StdNetBind.setReserved
      { ipv4 := none, ipv6 := none, blackhole4 := false, blackhole6 := false,
        reserved := some (1, 2, 3) } [0, 5, 5, 5]) ≠ [0, 5, 5, 5] ∧
    WgBind.resetReserved (WgBind.setReserved
      { conn := none, done := none, reserved := some (1, 2, 3) } [0, 5, 5, 5]) ≠
      [0, 5, 5, 5] := by
  decide

/-- Claim C7, amended: for every reserved-byte configuration and every
buffer of length at least 4 whose bytes 1-3 are zero (the canonical framing
the WireGuard engine emits), the sender-side patch followed by the
receiver-side strip restores the buffer exactly, for both Binds. -/
theorem reserved_roundtrip_amended (s : StdNetBind) (wb : WgBind) (b : List Nat)
    (hlen : 4 ≤ b.length)
    (h1 : b.get? 1 = some 0) (h2 : b.get? 2 = some 0) (h3 : b.get? 3 = some 0) :
    StdNetBind.resetReserved (StdNetBind.setReserved s b) = b ∧
    WgBind.resetReserved (WgBind.setReserved wb b) = b := by
  match b, hlen with
  | b0 :: b1 :: b2 :: b3 :: rest, _ =>
    obtain rfl : b1 = 0 := by simpa using h1
    obtain rfl : b2 = 0 := by simpa using h2
    obtain rfl : b3 = 0 := by simpa using h3
    constructor
    · cases hr : s.reserved with
      | none => simp [StdNetBind.setReserved, StdNetBind.resetReserved, hr, List.set]
      | some t =>
        obtain ⟨r0, r1, r2⟩ := t
        have hc : ¬ (rest.length + 1 + 1 + 1 + 1 < 4) := by omega
        simp [StdNetBind.setReserved, StdNetBind.resetReserved, hr, List.set, hc]
    · cases hr : wb.reserved with
      | none => simp [WgBind.setReserved, WgBind.resetReserved, hr, List.set]
      | some t =>
        obtain ⟨r0, r1, r2⟩ := t
        have hc : ¬ (rest.length + 1 + 1 + 1 + 1 < 4) := by omega
        simp [WgBind.setReserved, WgBind.resetReserved, hr, List.set, hc]

/-- Claim C7, witness for the amended round trip at marker `(9,8,7)` and
buffer `[7,0,0,0,42]`. -/
theorem reserved_roundtrip_amended_witness :
    StdNetBind.resetReserved (StdNetBind.setReserved
      { ipv4 := none, ipv6 := none, blackhole4 := false, blackhole6 := false,
        reserved := some (9, 8, 7) } [7, 0, 0, 0, 42]) = [7, 0, 0, 0, 42] ∧
    WgBind.resetReserved (WgBind.setReserved
      { conn := none, done := none, reserved := some (9, 8, 7) } [7, 0, 0, 0, 42]) =
      [7, 0, 0, 0, 42] :=
  reserved_roundtrip_amended
    { ipv4 := none, ipv6 := none, blackhole4 := false, blackhole6 := false,
      reserved := some (9, 8, 7) }
    { conn := none, done := none, reserved := some (9, 8, 7) }
    [7, 0, 0, 0, 42] (by decide) (by decide) (by decide) (by decide)

/-- Claim C8: opening an already-open direct-socket Bind fails with the
"already open" error regardless of the listen environment; and after
`Close`, a further `Open` in an environment where both family listens
succeed on the first pass returns successfully with both receive functions
installed. -/
theorem stdNetBind_open_close_open (s : StdNetBind) (env : OpenEnv) (uport p4 p6 : Nat)
    (hopen : s.ipv4.isSome ∨ s.ipv6.isSome)
    (h4 : env.listen4 0 uport = Except.ok p4)
    (h6 : env.listen6 0 p4 = Except.ok p6) :
    (StdNetBind.Open s env uport).2 = Except.error StdErr.bindAlreadyOpen ∧
    (StdNetBind.Open (StdNetBind.Close s).1 env uport).2 = Except.ok (2, p6 % 65536) := by
  constructor
  · simp [StdNetBind.Open, hopen]
  · simp [StdNetBind.Close, StdNetBind.Open, StdNetBind.openLoop, h4, h6]

/-- Claim C8, witness: a Bind holding an IPv4 socket, an environment where
both listens bind port 7. -/
theorem stdNetBind_open_close_open_witness :
    (StdNetBind.Open
      { ipv4 := some none, ipv6 := none, blackhole4 := false, blackhole6 := false,
        reserved := none }
      ⟨fun _ _ => Except.ok 7, fun _ _ => Except.ok 7⟩ 7).2 =
      Except.error StdErr.bindAlreadyOpen ∧
    (StdNetBind.Open
      (StdNetBind.Close
        { ipv4 := some none, ipv6 := none, blackhole4 := false, blackhole6 := false,
          reserved := none }).1
      ⟨fun _ _ => Except.ok 7, fun _ _ => Except.ok 7⟩ 7).2 = Except.ok (2, 7) :=
  stdNetBind_open_close_open
    { ipv4 := some none, ipv6 := none, blackhole4 := false, blackhole6 := false,
      reserved := none }
    ⟨fun _ _ => Except.ok 7, fun _ _ => Except.ok 7⟩ 7 7 7
    (Or.inl rfl) rfl rfl

/-- Helper for claim C4: if the reads starting at index `st` succeed for `m`
steps and the read at index `st + m` fails, the read loop stops with
`n = st + m`, closes the connection, and reports `net.ErrClosed` exactly
when the Bind was closed. -/
theorem receiveLoop_read_failure (doneClosed : Bool)
    (read : Nat → List Nat → List Nat × Nat × Option GoErrV) :
    ∀ (m : Nat) (packets : List (List Nat)) (st : Nat),
      m < packets.length →
      (∀ j b, st ≤ j → j < st + m → (read j b).2.2 = none) →
      (∀ b, ((read (st + m) b).2.2).isSome = true) →
      (WgBind.receiveLoop doneClosed read st packets).n = st + m ∧
      (WgBind.receiveLoop doneClosed read st packets).connClosed = true ∧
      (WgBind.receiveLoop doneClosed read st packets).err =
        (if doneClosed then some GoErrV.errClosed else none) := by
  intro m
  induction m with
  | zero =>
    intro packets st hlen hsucc hfail
    match packets, hlen with
    | b :: rest, _ =>
      have hf := hfail b
      rw [Nat.add_zero] at hf
      obtain ⟨e, he⟩ := Option.isSome_iff_exists.mp hf
      cases hd : doneClosed <;>
        simp [WgBind.receiveLoop, he, hd]
  | succ m ih =>
    intro packets st hlen hsucc hfail
    match packets, hlen with
    | b :: rest, hl =>
      have h0 : (read st b).2.2 = none := hsucc st b (Nat.le_refl st) (by omega)
      have hlen2 : m < rest.length := by
        simp only [List.length_cons] at hl
        omega
      have hsucc2 : ∀ j b2, st + 1 ≤ j → j < (st + 1) + m → (read j b2).2.2 = none := by
        intro j b2 hj1 hj2
        exact hsucc j b2 (by omega) (by omega)
      have hfail2 : ∀ b2, ((read ((st + 1) + m) b2).2.2).isSome = true := by
        intro b2
        have : (st + 1) + m = st + (m + 1) := by omega
        rw [this]
        exact hfail b2
      have := ih rest (st + 1) hlen2 hsucc2 hfail2
      simp only [WgBind.receiveLoop, h0]
      refine ⟨?_, ?_, ?_⟩
      · show (WgBind.receiveLoop doneClosed read (st + 1) rest).n = st + (m + 1)
        omega
      · exact this.2.1
      · exact this.2.2

/-- Claim C4: with an established connection, when the read at index `m`
fails partway through the buffer list (reads before it succeeding),
`receive` closes that connection and returns the count `m` of datagrams
successfully read with a nil error — except when the Bind has been closed,
in which case it returns `net.ErrClosed`. -/
theorem wgBind_receive_read_failure (wb : WgBind) (doneClosed : Bool)
    (dialResult : Except GoCause Unit)
    (read : Nat → List Nat → List Nat × Nat × Option GoErrV)
    (packets : List (List Nat)) (m : Nat)
    (hconn : wb.conn = some { closed := false })
    (hlen : m < packets.length)
    (hsucc : ∀ j b, j < m → (read j b).2.2 = none)
    (hfail : ∀ b, ((read m b).2.2).isSome = true) :
    (WgBind.receive wb doneClosed dialResult read packets).n = m ∧
    (WgBind.receive wb doneClosed dialResult read packets).connClosed = true ∧
    (WgBind.receive wb doneClosed dialResult read packets).err =
      (if doneClosed then some GoErrV.errClosed else none) := by
  have hloop := receiveLoop_read_failure doneClosed read m packets 0 hlen
    (fun j b _ hj => hsucc j b (by omega)) (fun b => by simpa using hfail b)
  rw [Nat.zero_add] at hloop
  simpa [WgBind.receive, WgBind.connect, hconn] using hloop

/-- Claim C4, witness: a connection whose very first read fails, Bind not
closed: count 0, nil error, connection closed. -/
theorem wgBind_receive_read_failure_witness :
    (WgBind.receive { conn := some { closed := false }, done := some false, reserved := none }
      false (Except.ok ()) (fun _ b => (b, 0, some (GoErrV.wgError GoCause.otherCause)))
      [[0, 0, 0, 0]]).n = 0 ∧
    (WgBind.receive { conn := some { closed := false }, done := some false, reserved := none }
      false (Except.ok ()) (fun _ b => (b, 0, some (GoErrV.wgError GoCause.otherCause)))
      [[0, 0, 0, 0]]).connClosed = true ∧
    (WgBind.receive { conn := some { closed := false }, done := some false, reserved := none }
      false (Except.ok ()) (fun _ b => (b, 0, some (GoErrV.wgError GoCause.otherCause)))
      [[0, 0, 0, 0]]).err = (if false then some GoErrV.errClosed else none) :=
  wgBind_receive_read_failure
    { conn := some { closed := false }, done := some false, reserved := none }
    false (Except.ok ()) (fun _ b => (b, 0, some (GoErrV.wgError GoCause.otherCause)))
    [[0, 0, 0, 0]] 0 rfl (by decide)
    (fun j b hj => absurd hj (Nat.not_lt_zero j)) (fun b => rfl)
